import Mathlib

/-!
# Earnings-dashboard chart helpers (`static/charts.js`)

A shallow embedding of the three functions of `static/charts.js`
(`initRevenueChart`, `initHoursChart`, `updateCharts`) together with the part
of the JavaScript semantics they rely on: Number values and
`Number.prototype.toFixed`, property access on a parsed JSON value, the
browser document, the charting library and the promise chain of `fetch`.

Every effect a function performs (a `console.error`, a `destroy()`, a
`new Chart(...)`, a `fetch(...)`) is appended to a trace kept in the state, so
that "how often" and "in which order" are statements about that list.
-/

namespace Charts

/-! ## JavaScript numbers and `toFixed` -/

/-- A JavaScript Number, an IEEE 754 binary64 value.  A finite value is written
`(-1)^neg * mant * 2^exp`; the binary64 values are those with `mant < 2^53` and
`-1074 ≤ exp ≤ 971`, see `JsNumber.IsDouble`.  Negative zero is
`finite true 0 e`. -/
inductive JsNumber where
  | nan
  | infinity (neg : Bool)
  | finite (neg : Bool) (mant : Nat) (exp : Int)
  deriving DecidableEq, Repr

namespace JsNumber

/-- The finite values that a binary64 can hold. -/
def IsDouble : JsNumber → Prop
  | nan => True
  | infinity _ => True
  | finite _ mant exp => mant < 2 ^ 53 ∧ -1074 ≤ exp ∧ exp ≤ 971

/-- Numerator of the magnitude `mant * 2^exp` of a finite value. -/
def magNum (mant : Nat) (exp : Int) : Nat := mant * 2 ^ exp.toNat

/-- Denominator of the magnitude `mant * 2^exp` of a finite value. -/
def magDen (exp : Int) : Nat := 2 ^ (-exp).toNat

/-- The mathematical value of a finite Number (`ℝ(x)` in ECMA-262); `none` for
NaN and the infinities. -/
def toRat : JsNumber → Option ℚ
  | nan => none
  | infinity _ => none
  | finite neg mant exp =>
    some ((if neg then -1 else 1) * ((magNum mant exp : ℚ) / (magDen exp : ℚ)))

/-- `𝔽` restricted to natural numbers: the binary64 value nearest to `N`, ties to
the even significand; `none` when the result overflows to `Infinity`. -/
def roundToDouble (N : Nat) : Option Nat :=
  let bits := (Nat.toDigits 2 N).length
  if bits ≤ 53 then some N
  else
    let sh := bits - 53
    let q := N / 2 ^ sh
    let r := N % 2 ^ sh
    let half := 2 ^ (sh - 1)
    let q1 := if half < r ∨ (r = half ∧ q % 2 = 1) then q + 1 else q
    let v := q1 * 2 ^ sh
    if (Nat.toDigits 2 v).length ≤ 1024 then some v else none

/-- The candidates `(distance to X, s, n)` with `k` significant digits for the
shortest decimal that reads back as `X` (step 5 of `Number::toString`): the
decimals `s * 10^(n-k)` just below and just above `X` that round to `X`. -/
def candidates (X n0 k : Nat) : List (Nat × Nat × Nat) :=
  let p := 10 ^ (n0 - k)
  let lo := X / p
  let below := if roundToDouble (lo * p) = some X then [(X - lo * p, lo, n0)] else []
  let hi := lo + 1
  let above :=
    if roundToDouble (hi * p) = some X then
      [((hi * p - X), (if hi = 10 ^ k then 10 ^ (k - 1) else hi),
        (if hi = 10 ^ k then n0 + 1 else n0))]
    else []
  below ++ above

/-- Of the candidates of one length, the one closest to `X`; of two equally
close ones, the even one (NOTE 2 of `Number::toString`). -/
def pickClosest : List (Nat × Nat × Nat) → Option (Nat × Nat)
  | [] => none
  | [(_, s, n)] => some (s, n)
  | (d1, s1, n1) :: (d2, s2, n2) :: _ =>
    if d1 < d2 then some (s1, n1)
    else if d2 < d1 then some (s2, n2)
    else if s1 % 2 = 0 then some (s1, n1) else some (s2, n2)

/-- Search for the least `k` (tried from `k` upwards, `fuel` lengths) that has a
candidate; returns `(s, n)`. -/
def shortestFrom (X n0 : Nat) : Nat → Nat → Option (Nat × Nat)
  | 0, _ => none
  | fuel + 1, k =>
    match pickClosest (candidates X n0 k) with
    | some r => some r
    | none => shortestFrom X n0 fuel (k + 1)

/-- `Number::toString(x, 10)` for a finite `x ≥ 10^21` whose value is the natural
number `X`: these are the only finite values `toFixed` hands to it.  There
`n ≥ 22`, so the result is always in exponential form (steps 7 to 11): the
digits of `s`, a point after the first one when there are several, `e+` and
`n - 1`.  Seventeen digits always identify a binary64 value. -/
def toStringLarge (X : Nat) : String :=
  let n0 := (Nat.toDigits 10 X).length
  let (s, n) := (shortestFrom X n0 17 1).getD (X, n0)
  let ds := Nat.toDigits 10 s
  let e := Nat.repr (n - 1)
  match ds with
  | [] => "e+" ++ e
  | [d] => String.mk [d] ++ "e+" ++ e
  | d :: rest => String.mk [d] ++ "." ++ String.mk rest ++ "e+" ++ e

/-- Steps 11.b and 11.c of `Number.prototype.toFixed`: the decimal digits of `n`,
left-padded with zeros to `f + 1` digits, with a point before the last `f`. -/
def fixedDigits (f n : Nat) : String :=
  let m := Nat.toDigits 10 n
  if f = 0 then String.mk m
  else
    let m := if m.length ≤ f then List.replicate (f + 1 - m.length) '0' ++ m else m
    let k := m.length
    String.mk (m.take (k - f)) ++ "." ++ String.mk (m.drop (k - f))

/-- `Number.prototype.toFixed(f)` for `0 ≤ f ≤ 100` (ECMA-262, 21.1.3.3).
A non-finite value gives `Number::toString`.  Otherwise the sign is split off
(`-0` has none), a magnitude of at least `10^21` is printed by
`Number::toString`, and below that `n` is the integer with `n / 10^f` nearest
to the magnitude, the larger one of two. -/
def toFixed (x : JsNumber) (f : Nat) : String :=
  match x with
  | nan => "NaN"
  | infinity neg => if neg then "-Infinity" else "Infinity"
  | finite neg mant exp =>
    let s := if neg ∧ mant ≠ 0 then "-" else ""
    let num := magNum mant exp
    let den := magDen exp
    if 10 ^ 21 * den ≤ num then s ++ toStringLarge (num / den)
    else s ++ fixedDigits f ((2 * num * 10 ^ f + den) / (2 * den))

end JsNumber

/-! ## JavaScript values, errors and property reads -/

/-- The JavaScript values that can reach this file: `undefined`, and what
`JSON.parse` produces. -/
inductive JsValue where
  | undefined
  | null
  | bool (b : Bool)
  | number (x : JsNumber)
  | string (s : String)
  | array (items : List JsValue)
  | object (props : List (String × JsValue))

/-- A thrown value: a `TypeError`, a plain `Error`, or a `SyntaxError`. -/
inductive JsError where
  | typeError (message : String)
  | error (message : String)
  | syntaxError (message : String)
  deriving DecidableEq, Repr

/-- The property read `v.name`, for a name that no built-in prototype defines
(`labels`, `revenue` and `hours` are the names read in this file): reading from
`undefined` or `null` throws a `TypeError`, an object gives its own property or
`undefined`, every other value gives `undefined`. -/
def JsValue.get (v : JsValue) (name : String) : Except JsError JsValue :=
  match v with
  | .undefined =>
    .error (.typeError ("Cannot read properties of undefined (reading " ++ name ++ ")"))
  | .null =>
    .error (.typeError ("Cannot read properties of null (reading " ++ name ++ ")"))
  | .object props => .ok ((props.lookup name).getD .undefined)
  | _ => .ok .undefined

/-- The `length` of an array value. -/
def JsValue.length? : JsValue → Option Nat
  | .array items => some items.length
  | _ => none

/-- The data model of the backend response: a sequence of labels and two numeric
series. -/
structure ChartDataPayload where
  labels : List String
  revenue : List JsNumber
  hours : List JsNumber

/-- The JavaScript object a `ChartDataPayload` is once parsed. -/
def ChartDataPayload.toJs (p : ChartDataPayload) : JsValue :=
  .object
    [("labels", .array (p.labels.map .string)),
     ("revenue", .array (p.revenue.map .number)),
     ("hours", .array (p.hours.map .number))]

/-! ## Chart configuration -/

/-- One entry of `data.datasets`; a key that a literal does not set is `none`. -/
structure Dataset where
  label : String
  data : JsValue
  borderColor : String
  backgroundColor : String
  tension : Option JsNumber
  fill : Option Bool
  borderWidth : Option JsNumber

/-- The `options` object both initializers pass, with its one varying part, the
tick callback of the y axis. -/
structure ChartOptions where
  responsive : Bool
  maintainAspectRatio : Bool
  legendDisplay : Bool
  legendPosition : String
  tooltipMode : String
  tooltipIntersect : Bool
  yBeginAtZero : Bool
  yTicksCallback : JsValue → Except JsError String

/-- The second argument of `new Chart(ctx, config)`. -/
structure ChartConfig where
  type : String
  labels : JsValue
  datasets : List Dataset
  options : ChartOptions

/-- The method call `value.toFixed(f)`: defined on Numbers; `undefined` and `null`
have no properties, and no other value has a `toFixed` method. -/
def callToFixed (value : JsValue) (f : Nat) : Except JsError String :=
  match value with
  | .number x => .ok (x.toFixed f)
  | .undefined =>
    .error (.typeError "Cannot read properties of undefined (reading toFixed)")
  | .null => .error (.typeError "Cannot read properties of null (reading toFixed)")
  | _ => .error (.typeError "value.toFixed is not a function")

/-- The y-axis tick callback of the revenue chart (`charts.js` lines 54 to 56):
`return '$' + value.toFixed(2)`. -/
def revenueTickCallback (value : JsValue) : Except JsError String :=
  match callToFixed value 2 with
  | .ok s => .ok ("$" ++ s)
  | .error e => .error e

/-- The y-axis tick callback of the hours chart (`charts.js` lines 111 to 113):
`return value.toFixed(1) + 'h'`. -/
def hoursTickCallback (value : JsValue) : Except JsError String :=
  match callToFixed value 1 with
  | .ok s => .ok (s ++ "h")
  | .error e => .error e

/-- The Number literal `0.1`, that is `3602879701896397 * 2^-55`. -/
def oneTenth : JsNumber := .finite false 3602879701896397 (-55)

/-- The configuration literal of `initRevenueChart` (`charts.js` lines 24 to 61),
given the values of `data.labels` and `data.revenue`. -/
def revenueConfig (labels revenue : JsValue) : ChartConfig :=
  { type := "line"
    labels := labels
    datasets :=
      [{ label := "Revenue ($)"
         data := revenue
         borderColor := "rgb(75, 192, 192)"
         backgroundColor := "rgba(75, 192, 192, 0.2)"
         tension := some oneTenth
         fill := some true
         borderWidth := none }]
    options :=
      { responsive := true
        maintainAspectRatio := true
        legendDisplay := true
        legendPosition := "top"
        tooltipMode := "index"
        tooltipIntersect := false
        yBeginAtZero := true
        yTicksCallback := revenueTickCallback } }

/-- The configuration literal of `initHoursChart` (`charts.js` lines 82 to 118),
given the values of `data.labels` and `data.hours`. -/
def hoursConfig (labels hours : JsValue) : ChartConfig :=
  { type := "bar"
    labels := labels
    datasets :=
      [{ label := "Hours"
         data := hours
         borderColor := "rgb(54, 162, 235)"
         backgroundColor := "rgba(54, 162, 235, 0.5)"
         tension := none
         fill := none
         borderWidth := some (.finite false 1 0) }]
    options :=
      { responsive := true
        maintainAspectRatio := true
        legendDisplay := true
        legendPosition := "top"
        tooltipMode := "index"
        tooltipIntersect := false
        yBeginAtZero := true
        yTicksCallback := hoursTickCallback } }

/-! ## The browser and the charting library -/

/-- A DOM element, known by its identity. -/
structure Element where
  node : Nat
  deriving DecidableEq, Repr

/-- A `Chart` object, known by its identity. -/
abbrev ChartRef := Nat

/-- `document.getElementById`: the element with that id, or `none` for `null`. -/
abbrev Document := String → Option Element

/-- An argument of `console.error`: a string, or a thrown value. -/
inductive LogArg where
  | text (s : String)
  | thrown (e : JsError)
  deriving DecidableEq, Repr

/-- The effects of this file, as recorded in the trace. -/
inductive Event where
  | consoleError (args : List LogArg)
  | destroy (chart : ChartRef)
  | newChart (chart : ChartRef) (ctx : Element) (config : ChartConfig)
  | fetch (url : String)

/-- The state: the two module variables of `charts.js` lines 5 and 6 (`none` is
`null`), the identity the next constructed object gets, and the trace of effects
so far, oldest first. -/
structure World where
  revenueChartInstance : Option ChartRef
  hoursChartInstance : Option ChartRef
  nextChart : ChartRef
  trace : List Event

/-- The state when the script has just been loaded: both variables `null`. -/
def World.initial : World :=
  { revenueChartInstance := none, hoursChartInstance := none, nextChart := 0, trace := [] }

/-- The call `console.error(args)`. -/
def consoleError (args : List LogArg) (w : World) : World :=
  { w with trace := w.trace ++ [Event.consoleError args] }

/-- Modelled from the spec: the charting library is an external collaborator
(section 6, `instance.destroy()`); the call releases the instance and returns. -/
def destroy (chart : ChartRef) (w : World) : World :=
  { w with trace := w.trace ++ [Event.destroy chart] }

/-- Modelled from the spec: the charting library is an external collaborator
(section 6, `construct(surface, config) → instance`); `new Chart(ctx, config)`
returns a new object, distinct from every object that exists. -/
def newChart (ctx : Element) (config : ChartConfig) (w : World) : ChartRef × World :=
  (w.nextChart,
    { w with nextChart := w.nextChart + 1
             trace := w.trace ++ [Event.newChart w.nextChart ctx config] })

/-- What an initializer leaves: the state, and either the returned value (`none`
is `null`) or the thrown value. -/
abbrev InitResult := World × Except JsError (Option ChartRef)

/-- The function `initRevenueChart(data, canvasId = 'revenueChart')` of
`charts.js` lines 13 to 64; `canvasId = none` is the omitted argument. -/
def initRevenueChart (document : Document) (data : JsValue) (canvasId : Option String)
    (w : World) : InitResult :=
  let canvasId := canvasId.getD "revenueChart"
  match document canvasId with
  | none =>
    (consoleError [.text ("Canvas element with id '" ++ canvasId ++ "' not found")] w,
      .ok none)
  | some ctx =>
    let w :=
      match w.revenueChartInstance with
      | some chart => destroy chart w
      | none => w
    match data.get "labels" with
    | .error e => (w, .error e)
    | .ok labels =>
      match data.get "revenue" with
      | .error e => (w, .error e)
      | .ok revenue =>
        let (chart, w) := newChart ctx (revenueConfig labels revenue) w
        ({ w with revenueChartInstance := some chart }, .ok (some chart))

/-- The function `initHoursChart(data, canvasId = 'hoursChart')` of `charts.js`
lines 71 to 121; `canvasId = none` is the omitted argument. -/
def initHoursChart (document : Document) (data : JsValue) (canvasId : Option String)
    (w : World) : InitResult :=
  let canvasId := canvasId.getD "hoursChart"
  match document canvasId with
  | none =>
    (consoleError [.text ("Canvas element with id '" ++ canvasId ++ "' not found")] w,
      .ok none)
  | some ctx =>
    let w :=
      match w.hoursChartInstance with
      | some chart => destroy chart w
      | none => w
    match data.get "labels" with
    | .error e => (w, .error e)
    | .ok labels =>
      match data.get "hours" with
      | .error e => (w, .error e)
      | .ok hours =>
        let (chart, w) := newChart ctx (hoursConfig labels hours) w
        ({ w with hoursChartInstance := some chart }, .ok (some chart))

/-! ## The network and `updateCharts` -/

/-- A `Response`: its status, and how `response.json()` settles (the parsed body,
or the error the parse rejects with). -/
structure Response where
  status : Nat
  json : Except JsError JsValue

/-- `response.ok`: the status is in the range 200 to 299 (Fetch standard). -/
def Response.ok (r : Response) : Bool := 200 ≤ r.status && r.status ≤ 299

/-- How the promise returned by `fetch` settles: rejected on a transport failure,
fulfilled with a response otherwise. -/
inductive FetchResult where
  | rejected (reason : JsError)
  | fulfilled (response : Response)

/-- `fetch` as seen from the page: the settlement for each requested URL. -/
abbrev Network := String → FetchResult

/-- The call `fetch(url)`. -/
def fetchCall (url : String) (w : World) : World :=
  { w with trace := w.trace ++ [Event.fetch url] }

/-- The two `then` callbacks of `updateCharts` (`charts.js` lines 130 to 139) on a
settled fetch: either they run through, or the chain is rejected with an error. -/
def thenChain (document : Document) (result : FetchResult) (w : World) :
    World × Except JsError Unit :=
  match result with
  | .rejected reason => (w, .error reason)
  | .fulfilled response =>
    if !response.ok then
      (w, .error (.error ("HTTP error! status: " ++ toString response.status)))
    else
      match response.json with
      | .error e => (w, .error e)
      | .ok data =>
        match initRevenueChart document data none w with
        | (w, .error e) => (w, .error e)
        | (w, .ok _) =>
          match initHoursChart document data none w with
          | (w, .error e) => (w, .error e)
          | (w, .ok _) => (w, .ok ())

/-- The function `updateCharts(period, baseUrl = '/api/chart_data')` of
`charts.js` lines 128 to 143, run until its promise chain has settled;
`baseUrl = none` is the omitted argument.  The function returns nothing and
throws nothing: a rejection anywhere in the chain ends in the `catch` callback,
which logs it. -/
def updateCharts (document : Document) (network : Network) (period : String)
    (baseUrl : Option String) (w : World) : World :=
  let baseUrl := baseUrl.getD "/api/chart_data"
  let url := baseUrl ++ "?period=" ++ period
  let w := fetchCall url w
  match thenChain document (network url) w with
  | (w, .error e) => consoleError [.text "Error fetching chart data:", .thrown e] w
  | (w, .ok _) => w

/-! ## Vocabulary of the properties -/

/-- The two chart slots. -/
inductive ChartSlot where
  | revenue
  | hours
  deriving DecidableEq, Repr

/-- The module variable that holds the slot's instance. -/
def World.slot (w : World) : ChartSlot → Option ChartRef
  | .revenue => w.revenueChartInstance
  | .hours => w.hoursChartInstance

/-- The slot's initializer. -/
def initChart : ChartSlot → Document → JsValue → Option String → World → InitResult
  | .revenue => initRevenueChart
  | .hours => initHoursChart

/-- The default target identifier of the slot's initializer. -/
def ChartSlot.defaultId : ChartSlot → String
  | .revenue => "revenueChart"
  | .hours => "hoursChart"

/-- The chart kind the slot's initializer asks for. -/
def ChartSlot.kind : ChartSlot → String
  | .revenue => "line"
  | .hours => "bar"

/-- The series of the payload the slot shows. -/
def ChartSlot.series (p : ChartDataPayload) : ChartSlot → List JsNumber
  | .revenue => p.revenue
  | .hours => p.hours

/-- The configuration the slot's initializer builds from a payload. -/
def ChartSlot.config (p : ChartDataPayload) : ChartSlot → ChartConfig
  | .revenue =>
    revenueConfig (.array (p.labels.map .string)) (.array (p.revenue.map .number))
  | .hours => hoursConfig (.array (p.labels.map .string)) (.array (p.hours.map .number))

/-- The message an initializer logs when its target does not resolve. -/
def notFound (canvasId : String) : Event :=
  .consoleError [.text ("Canvas element with id '" ++ canvasId ++ "' not found")]

/-- The URLs requested in a trace, in order. -/
def fetches : List Event → List String
  | [] => []
  | .fetch url :: rest => url :: fetches rest
  | _ :: rest => fetches rest

/-- The instances destroyed in a trace, in order. -/
def destroyed : List Event → List ChartRef
  | [] => []
  | .destroy chart :: rest => chart :: destroyed rest
  | _ :: rest => destroyed rest

/-- The instances constructed in a trace with the given chart kind, in order. -/
def constructed (kind : String) : List Event → List ChartRef
  | [] => []
  | .newChart chart _ config :: rest =>
    if config.type = kind then chart :: constructed kind rest else constructed kind rest
  | _ :: rest => constructed kind rest

/-- The configuration with which the instance `chart` was constructed: that of
its latest construction in the trace. -/
def configIn (chart : ChartRef) : List Event → Option ChartConfig
  | [] => none
  | .newChart c _ config :: rest =>
    (configIn chart rest).or (if c = chart then some config else none)
  | _ :: rest => configIn chart rest

/-- The configuration of the instance `chart` in a state. -/
def World.configOf (w : World) (chart : ChartRef) : Option ChartConfig :=
  configIn chart w.trace

/-- The references of a state point to objects that exist: the instance a slot
holds has an identity below the next one to be given out. -/
def World.WellFormed (w : World) : Prop :=
  ∀ s chart, w.slot s = some chart → chart < w.nextChart

/-- One call to an initializer, with the document as it is at that moment. -/
structure Call where
  slot : ChartSlot
  document : Document
  data : JsValue
  canvasId : Option String

/-- The state after a sequence of initializer calls; a call that throws leaves
its state to the next call, as a caller that catches the error would. -/
def runCalls : List Call → World → World
  | [], w => w
  | c :: rest, w => runCalls rest (initChart c.slot c.document c.data c.canvasId w).1

/-- The effects by which an initializer releases what its slot holds: one
`destroy()` on the instance held, none on an empty slot. -/
def released (w : World) (s : ChartSlot) : List Event :=
  match w.slot s with
  | some old => [Event.destroy old]
  | none => []

/-- The instances a trace mentions, as destroyed or as constructed. -/
def mentioned : List Event → List ChartRef
  | [] => []
  | .destroy chart :: rest => chart :: mentioned rest
  | .newChart chart _ _ :: rest => chart :: mentioned rest
  | _ :: rest => mentioned rest

/-- Every object the state refers to exists: what the slots hold and what the
trace mentions has an identity below the next one to be given out, so that the
next constructed object occurs nowhere yet. -/
def World.Fresh (w : World) : Prop :=
  w.WellFormed ∧ ∀ chart ∈ mentioned w.trace, chart < w.nextChart

/-! ## Sample inputs -/

/-- The payload `{labels: ["Mon", "Tue"], revenue: [10, 20], hours: [1, 2]}`. -/
def samplePayload : ChartDataPayload :=
  { labels := ["Mon", "Tue"]
    revenue := [.finite false 10 0, .finite false 20 0]
    hours := [.finite false 1 0, .finite false 2 0] }

/-- A page with both canvases. -/
def bothCanvases : Document := fun id =>
  if id = "revenueChart" then some ⟨1⟩ else if id = "hoursChart" then some ⟨2⟩ else none

/-- A page with the revenue canvas only. -/
def revenueCanvasOnly : Document := fun id =>
  if id = "revenueChart" then some ⟨1⟩ else none

/-- A page with the hours canvas only. -/
def hoursCanvasOnly : Document := fun id =>
  if id = "hoursChart" then some ⟨2⟩ else none

/-- A page with no canvas. -/
def emptyPage : Document := fun _ => none

/-- A state in which both slots hold an instance: 0 in the revenue slot, 1 in the
hours slot. -/
def bothHeld : World :=
  { revenueChartInstance := some 0
    hoursChartInstance := some 1
    nextChart := 2
    trace :=
      [Event.newChart 0 ⟨1⟩ (ChartSlot.revenue.config samplePayload),
       Event.newChart 1 ⟨2⟩ (ChartSlot.hours.config samplePayload)] }

/-- A backend that answers every request with the sample payload. -/
def sampleBackend : Network := fun _ =>
  .fulfilled { status := 200, json := .ok samplePayload.toJs }

/-- A backend that answers every request with HTTP 500. -/
def failingBackend : Network := fun _ =>
  .fulfilled { status := 500, json := .ok .null }

/-! ## Vocabulary of the tick formats -/

/-- The `f` low decimal digits of `n`, most significant first. -/
def fracDigits : Nat → Nat → List Char
  | 0, _ => []
  | f + 1, n => fracDigits f (n / 10) ++ [Nat.digitChar (n % 10)]

/-- The string `s` is `q` rounded to `f` decimals, written with exactly `f` digits
after the decimal point: for a natural number `n` with `n / 10^f` nearest to the
magnitude of `q`, it is the sign of `q`, the decimal numeral of the integer part
`n / 10^f`, a point, and the `f` low digits of `n`. -/
def IsFixedNotation (f : Nat) (q : ℚ) (s : String) : Prop :=
  ∃ n : ℕ, abs ((n : ℚ) / 10 ^ f - abs q) ≤ 1 / (2 * 10 ^ f) ∧
    s = (if q < 0 then "-" else "") ++ Nat.repr (n / 10 ^ f) ++ "." ++
      String.mk (fracDigits f n)

/-- The Number `1234.5`, that is `2469 * 2^-1`. -/
def tick1234_5 : JsNumber := .finite false 2469 (-1)

/-- The Number `7`. -/
def tick7 : JsNumber := .finite false 7 0

/-- The Number `1e21`, that is `476837158203125 * 2^21`. -/
def tick1e21 : JsNumber := .finite false 476837158203125 21

/-! ## Basic facts about traces -/

theorem destroyed_append (l l2 : List Event) :
    destroyed (l ++ l2) = destroyed l ++ destroyed l2 := by
  induction l with
  | nil => rfl
  | cons e rest ih => cases e <;> simp [destroyed, ih]

theorem fetches_append (l l2 : List Event) :
    fetches (l ++ l2) = fetches l ++ fetches l2 := by
  induction l with
  | nil => rfl
  | cons e rest ih => cases e <;> simp [fetches, ih]

theorem constructed_append (kind : String) (l l2 : List Event) :
    constructed kind (l ++ l2) = constructed kind l ++ constructed kind l2 := by
  induction l with
  | nil => rfl
  | cons e rest ih =>
    cases e <;> simp [constructed, ih]
    split <;> simp

theorem configIn_append (chart : ChartRef) (l l2 : List Event) :
    configIn chart (l ++ l2) = (configIn chart l2).or (configIn chart l) := by
  induction l with
  | nil => simp [configIn]
  | cons e rest ih =>
    cases e <;> simp [configIn, ih, Option.or_assoc]

theorem get_toJs_labels (p : ChartDataPayload) :
    p.toJs.get "labels" = .ok (.array (p.labels.map .string)) := by
  rfl

theorem get_toJs_revenue (p : ChartDataPayload) :
    p.toJs.get "revenue" = .ok (.array (p.revenue.map .number)) := by
  rfl

theorem get_toJs_hours (p : ChartDataPayload) :
    p.toJs.get "hours" = .ok (.array (p.hours.map .number)) := by
  rfl

/-! ## What one initializer call does -/

theorem initChart_unresolved (s : ChartSlot) (document : Document) (data : JsValue)
    (canvasId : Option String) (w : World)
    (h : document (canvasId.getD s.defaultId) = none) :
    initChart s document data canvasId w =
      ({ w with trace := w.trace ++ [notFound (canvasId.getD s.defaultId)] }, .ok none) := by
  cases s <;>
    simp only [initChart, initRevenueChart, initHoursChart, ChartSlot.defaultId] at h ⊢ <;>
    rw [h] <;> rfl

theorem initRevenueChart_payload (document : Document) (p : ChartDataPayload)
    (canvasId : Option String) (w : World) (ctx : Element)
    (h : document (canvasId.getD "revenueChart") = some ctx) :
    initRevenueChart document p.toJs canvasId w =
      ({ revenueChartInstance := some w.nextChart
         hoursChartInstance := w.hoursChartInstance
         nextChart := w.nextChart + 1
         trace := w.trace ++ released w .revenue
           ++ [Event.newChart w.nextChart ctx (ChartSlot.revenue.config p)] },
        .ok (some w.nextChart)) := by
  simp only [initRevenueChart]
  rw [h]
  simp only [get_toJs_labels, get_toJs_revenue, World.slot, released]
  cases w.revenueChartInstance <;> simp [newChart, destroy, ChartSlot.config]

theorem initHoursChart_payload (document : Document) (p : ChartDataPayload)
    (canvasId : Option String) (w : World) (ctx : Element)
    (h : document (canvasId.getD "hoursChart") = some ctx) :
    initHoursChart document p.toJs canvasId w =
      ({ revenueChartInstance := w.revenueChartInstance
         hoursChartInstance := some w.nextChart
         nextChart := w.nextChart + 1
         trace := w.trace ++ released w .hours
           ++ [Event.newChart w.nextChart ctx (ChartSlot.hours.config p)] },
        .ok (some w.nextChart)) := by
  simp only [initHoursChart]
  rw [h]
  simp only [get_toJs_labels, get_toJs_hours, World.slot, released]
  cases w.hoursChartInstance <;> simp [newChart, destroy, ChartSlot.config]

theorem initChart_payload_trace (s : ChartSlot) (document : Document) (p : ChartDataPayload)
    (canvasId : Option String) (w : World) (ctx : Element)
    (h : document (canvasId.getD s.defaultId) = some ctx) :
    (initChart s document p.toJs canvasId w).1.trace =
        w.trace ++ released w s ++ [Event.newChart w.nextChart ctx (s.config p)] ∧
      (initChart s document p.toJs canvasId w).1.slot s = some w.nextChart ∧
      (initChart s document p.toJs canvasId w).2 = .ok (some w.nextChart) ∧
      (initChart s document p.toJs canvasId w).1.nextChart = w.nextChart + 1 ∧
      ∀ t, t ≠ s → (initChart s document p.toJs canvasId w).1.slot t = w.slot t := by
  cases s
  · simp only [initChart, initRevenueChart_payload document p canvasId w ctx h, World.slot]
    refine ⟨trivial, trivial, trivial, trivial, ?_⟩
    intro t ht; cases t <;> simp_all
  · simp only [initChart, initHoursChart_payload document p canvasId w ctx h, World.slot]
    refine ⟨trivial, trivial, trivial, trivial, ?_⟩
    intro t ht; cases t <;> simp_all

/-- Whatever the arguments, an initializer either leaves the slot and adds at
most a log entry or the release of the instance held, or it releases the instance
held, constructs a chart of the slot's kind and stores it. -/
theorem initChart_effect (s : ChartSlot) (document : Document) (data : JsValue)
    (canvasId : Option String) (w : World) :
    (∀ t, t ≠ s → (initChart s document data canvasId w).1.slot t = w.slot t) ∧
    (((initChart s document data canvasId w).1.slot s = w.slot s ∧
        (initChart s document data canvasId w).1.nextChart = w.nextChart ∧
        ((initChart s document data canvasId w).1.trace =
            w.trace ++ [notFound (canvasId.getD s.defaultId)] ∨
          (initChart s document data canvasId w).1.trace = w.trace ++ released w s)) ∨
      ∃ ctx config, config.type = s.kind ∧
        (initChart s document data canvasId w).1.slot s = some w.nextChart ∧
        (initChart s document data canvasId w).1.nextChart = w.nextChart + 1 ∧
        (initChart s document data canvasId w).1.trace =
          w.trace ++ released w s ++ [Event.newChart w.nextChart ctx config]) := by
  cases s
  · refine ⟨?_, ?_⟩
    · intro t ht
      cases t
      · exact absurd rfl ht
      · simp only [initChart, initRevenueChart, World.slot]
        cases document (canvasId.getD "revenueChart") <;>
          cases w.revenueChartInstance <;> cases data <;> rfl
    · simp only [initChart, initRevenueChart, World.slot, released, ChartSlot.defaultId,
        ChartSlot.kind]
      cases hd : document (canvasId.getD "revenueChart") with
      | none => left; simp [consoleError, notFound]
      | some ctx =>
        cases hs : w.revenueChartInstance <;> cases data <;>
          simp [JsValue.get, newChart, destroy, revenueConfig, hs]
  · refine ⟨?_, ?_⟩
    · intro t ht
      cases t
      · simp only [initChart, initHoursChart, World.slot]
        cases document (canvasId.getD "hoursChart") <;>
          cases w.hoursChartInstance <;> cases data <;> rfl
      · exact absurd rfl ht
    · simp only [initChart, initHoursChart, World.slot, released, ChartSlot.defaultId,
        ChartSlot.kind]
      cases hd : document (canvasId.getD "hoursChart") with
      | none => left; simp [consoleError, notFound]
      | some ctx =>
        cases hs : w.hoursChartInstance <;> cases data <;>
          simp [JsValue.get, newChart, destroy, hoursConfig, hs]

/-! ## The initializers -/

/-- C1. When the target resolves, an initializer called on a slot that holds an
instance `old` performs exactly two effects, in this order: `old.destroy()` and
the construction of the new chart, so `old` is destroyed once; afterwards the
slot does not hold `old`.  Called on an empty slot it performs the construction
only and destroys nothing. -/
theorem reinit_destroys_prior_once (s : ChartSlot) (document : Document)
    (p : ChartDataPayload) (canvasId : Option String) (w : World) (ctx : Element)
    (hres : document (canvasId.getD s.defaultId) = some ctx) (hwf : w.WellFormed) :
    (∀ old, w.slot s = some old →
      (initChart s document p.toJs canvasId w).1.trace =
          w.trace ++ [Event.destroy old, Event.newChart w.nextChart ctx (s.config p)] ∧
        destroyed (initChart s document p.toJs canvasId w).1.trace =
          destroyed w.trace ++ [old] ∧
        (initChart s document p.toJs canvasId w).1.slot s ≠ some old) ∧
    (w.slot s = none →
      (initChart s document p.toJs canvasId w).1.trace =
          w.trace ++ [Event.newChart w.nextChart ctx (s.config p)] ∧
        destroyed (initChart s document p.toJs canvasId w).1.trace = destroyed w.trace) := by
  obtain ⟨ht, hs, -, -, -⟩ := initChart_payload_trace s document p canvasId w ctx hres
  refine ⟨?_, ?_⟩
  · intro old hold
    have hlt : old < w.nextChart := hwf s old hold
    refine ⟨?_, ?_, ?_⟩
    · rw [ht]; simp [released, hold]
    · rw [ht]; simp [released, hold, destroyed_append, destroyed]
    · rw [hs]; intro h; injection h with h; exact absurd h (Nat.ne_of_gt hlt)
  · intro hnone
    refine ⟨?_, ?_⟩
    · rw [ht]; simp [released, hnone]
    · rw [ht]; simp [released, hnone, destroyed_append, destroyed]

/-- C1, at a concrete input: re-initializing the revenue slot that holds instance
0 destroys 0 once, then constructs instance 2, and the slot no longer holds 0. -/
theorem reinit_destroys_prior_once_witness :
    (initChart .revenue bothCanvases samplePayload.toJs none bothHeld).1.trace =
        bothHeld.trace ++
          [Event.destroy 0, Event.newChart 2 ⟨1⟩ (ChartSlot.revenue.config samplePayload)] ∧
      destroyed (initChart .revenue bothCanvases samplePayload.toJs none bothHeld).1.trace =
        destroyed bothHeld.trace ++ [0] ∧
      (initChart .revenue bothCanvases samplePayload.toJs none bothHeld).1.slot .revenue ≠
        some 0 :=
  (reinit_destroys_prior_once .revenue bothCanvases samplePayload none bothHeld ⟨1⟩ rfl
    (by intro s chart h; cases s <;> simp [World.slot, bothHeld] at h <;> simp [bothHeld, ← h])).1
    0 rfl

/-- C2. When the target does not resolve, an initializer returns `null` without
throwing, and the state it leaves differs from the one before only by one
`console.error` entry at the end of the trace: both slots hold what they held,
nothing is destroyed and nothing is constructed.  This holds for every value of
`data`. -/
theorem unresolved_target_only_logs (s : ChartSlot) (document : Document)
    (data : JsValue) (canvasId : Option String) (w : World)
    (hres : document (canvasId.getD s.defaultId) = none) :
    (initChart s document data canvasId w).2 = .ok none ∧
      (initChart s document data canvasId w).1 =
        { w with trace := w.trace ++ [Event.consoleError
            [.text ("Canvas element with id '" ++ canvasId.getD s.defaultId ++ "' not found")]] } ∧
      (initChart s document data canvasId w).1.slot s = w.slot s ∧
      destroyed (initChart s document data canvasId w).1.trace = destroyed w.trace ∧
      ∀ kind, constructed kind (initChart s document data canvasId w).1.trace =
        constructed kind w.trace := by
  rw [initChart_unresolved s document data canvasId w hres]
  refine ⟨rfl, rfl, ?_, ?_, ?_⟩
  · cases s <;> rfl
  · simp [destroyed_append, destroyed, notFound]
  · intro kind; simp [constructed_append, constructed, notFound]

/-- C2, at a concrete input: on a page without canvases the hours initializer
returns `null` and leaves the hours slot holding instance 1. -/
theorem unresolved_target_only_logs_witness :
    (initChart .hours emptyPage .null none bothHeld).2 = .ok none ∧
      (initChart .hours emptyPage .null none bothHeld).1.slot .hours = some 1 :=
  ⟨(unresolved_target_only_logs .hours emptyPage .null none bothHeld rfl).1,
    (unresolved_target_only_logs .hours emptyPage .null none bothHeld rfl).2.2.1⟩

/-- C8. For a payload whose three sequences have length `n` and a target that
resolves, the last effect of an initializer is the construction of a chart
whose configuration has the slot's kind (`line` for revenue, `bar` for hours),
the payload's labels, and exactly one dataset, whose data is the slot's series
of the payload, of length `n`; the instance constructed is both returned and
stored in the slot. -/
theorem config_built_from_payload (s : ChartSlot) (document : Document)
    (p : ChartDataPayload) (n : Nat) (canvasId : Option String) (w : World) (ctx : Element)
    (hres : document (canvasId.getD s.defaultId) = some ctx)
    (hlen : p.labels.length = n ∧ p.revenue.length = n ∧ p.hours.length = n) :
    ∃ config dataset,
      (initChart s document p.toJs canvasId w).1.trace =
          w.trace ++ released w s ++ [Event.newChart w.nextChart ctx config] ∧
        config.type = (match s with | .revenue => "line" | .hours => "bar") ∧
        config.labels = .array (p.labels.map .string) ∧
        config.labels.length? = some n ∧
        config.datasets = [dataset] ∧
        dataset.data =
          .array ((match s with | .revenue => p.revenue | .hours => p.hours).map .number) ∧
        dataset.data.length? = some n ∧
        (initChart s document p.toJs canvasId w).2 = .ok (some w.nextChart) ∧
        (initChart s document p.toJs canvasId w).1.slot s = some w.nextChart := by
  obtain ⟨ht, hs, hr, -, -⟩ := initChart_payload_trace s document p canvasId w ctx hres
  obtain ⟨hl, hrev, hh⟩ := hlen
  cases s
  · exact ⟨_, _, ht, rfl, rfl,
      by simp [JsValue.length?, ChartSlot.config, revenueConfig, hl], rfl, rfl,
      by simp [JsValue.length?, hrev], hr, hs⟩
  · exact ⟨_, _, ht, rfl, rfl,
      by simp [JsValue.length?, ChartSlot.config, hoursConfig, hl], rfl, rfl,
      by simp [JsValue.length?, hh], hr, hs⟩

/-- C8, at a concrete input: the sample payload, of length 2, on a page with
both canvases. -/
theorem config_built_from_payload_witness :
    ∃ config dataset,
      (initChart .hours bothCanvases samplePayload.toJs none World.initial).1.trace =
          World.initial.trace ++ released World.initial .hours ++
            [Event.newChart World.initial.nextChart ⟨2⟩ config] ∧
        config.type = "bar" ∧
        config.labels = .array (samplePayload.labels.map .string) ∧
        config.labels.length? = some 2 ∧
        config.datasets = [dataset] ∧
        dataset.data = .array (samplePayload.hours.map .number) ∧
        dataset.data.length? = some 2 ∧
        (initChart .hours bothCanvases samplePayload.toJs none World.initial).2 =
          .ok (some World.initial.nextChart) ∧
        (initChart .hours bothCanvases samplePayload.toJs none World.initial).1.slot .hours =
          some World.initial.nextChart :=
  config_built_from_payload .hours bothCanvases samplePayload 2 none World.initial ⟨2⟩ rfl
    ⟨rfl, rfl, rfl⟩

/-! ## `updateCharts` -/

theorem initChart_fetches (s : ChartSlot) (document : Document) (data : JsValue)
    (canvasId : Option String) (w : World) :
    fetches (initChart s document data canvasId w).1.trace = fetches w.trace := by
  have hrel : fetches (released w s) = [] := by
    unfold released; cases w.slot s <;> rfl
  obtain ⟨-, h | ⟨ctx, config, -, -, -, h⟩⟩ := initChart_effect s document data canvasId w
  · obtain ⟨-, -, h | h⟩ := h
    · rw [h]; simp [fetches_append, fetches, notFound]
    · rw [h]; simp [fetches_append, hrel]
  · rw [h]; simp [fetches_append, hrel, fetches]

theorem thenChain_fetches (document : Document) (result : FetchResult) (w : World) :
    fetches (thenChain document result w).1.trace = fetches w.trace := by
  have hr := initChart_fetches .revenue document
  have hh := initChart_fetches .hours document
  simp only [initChart] at hr hh
  cases result with
  | rejected reason => rfl
  | fulfilled response =>
    simp only [thenChain]
    split
    · rfl
    · cases hj : response.json with
      | error e => rfl
      | ok data =>
        have h1 := hr data none w
        simp only []
        cases hrev : initRevenueChart document data none w with
        | mk w1 r1 =>
          rw [hrev] at h1
          cases r1 with
          | error e => exact h1
          | ok v =>
            have h2 := hh data none w1
            simp only []
            cases hhrs : initHoursChart document data none w1 with
            | mk w2 r2 =>
              rw [hhrs] at h2
              cases r2 <;> simp_all

/-- C5. One call to `updateCharts(p, b)` adds exactly one request to those made
before, to the URL `b` followed by `?period=` and `p`, whatever the document and
the network answer; with `b` omitted the base is `/api/chart_data`, so that
`updateCharts("weekly")` requests `/api/chart_data?period=weekly` once. -/
theorem update_requests_once (document : Document) (network : Network) (period : String)
    (w : World) :
    (∀ b : String, fetches (updateCharts document network period (some b) w).trace =
        fetches w.trace ++ [b ++ "?period=" ++ period]) ∧
      fetches (updateCharts document network period none w).trace =
        fetches w.trace ++ ["/api/chart_data" ++ "?period=" ++ period] ∧
      fetches (updateCharts document network "weekly" none w).trace =
        fetches w.trace ++ ["/api/chart_data?period=weekly"] := by
  have key : ∀ (per : String) (base : Option String),
      fetches (updateCharts document network per base w).trace =
        fetches w.trace ++ [base.getD "/api/chart_data" ++ "?period=" ++ per] := by
    intro per base
    have h := thenChain_fetches document
      (network (base.getD "/api/chart_data" ++ "?period=" ++ per))
      (fetchCall (base.getD "/api/chart_data" ++ "?period=" ++ per) w)
    simp only [updateCharts]
    cases hc : thenChain document
        (network (base.getD "/api/chart_data" ++ "?period=" ++ per))
        (fetchCall (base.getD "/api/chart_data" ++ "?period=" ++ per) w) with
    | mk w1 r =>
      rw [hc] at h
      cases r <;>
        simp_all [consoleError, fetchCall, fetches_append, fetches]
  refine ⟨fun b => key period (some b), key period none, ?_⟩
  have h := key "weekly" none
  simpa using h

/-- C3. When the fetch fails, `updateCharts` leaves a state that differs from the
one before only by two trace entries, the request and one `console.error` with
the error: both slots hold what they held and no initializer has run.  The
three failures are a rejected fetch (transport), a response whose status is not
a success (the error carries the status), and a response with a success status
whose body does not parse. -/
theorem failed_fetch_only_logs (document : Document) (network : Network) (period : String)
    (baseUrl : Option String) (w : World) :
    (∀ e, network (baseUrl.getD "/api/chart_data" ++ "?period=" ++ period) = .rejected e →
      updateCharts document network period baseUrl w =
        { w with trace := w.trace ++
            [Event.fetch (baseUrl.getD "/api/chart_data" ++ "?period=" ++ period),
             Event.consoleError [.text "Error fetching chart data:", .thrown e]] }) ∧
    (∀ r, network (baseUrl.getD "/api/chart_data" ++ "?period=" ++ period) = .fulfilled r →
      ¬ (200 ≤ r.status ∧ r.status ≤ 299) →
      updateCharts document network period baseUrl w =
        { w with trace := w.trace ++
            [Event.fetch (baseUrl.getD "/api/chart_data" ++ "?period=" ++ period),
             Event.consoleError [.text "Error fetching chart data:",
               .thrown (.error ("HTTP error! status: " ++ toString r.status))]] }) ∧
    (∀ r e, network (baseUrl.getD "/api/chart_data" ++ "?period=" ++ period) = .fulfilled r →
      200 ≤ r.status ∧ r.status ≤ 299 → r.json = .error e →
      updateCharts document network period baseUrl w =
        { w with trace := w.trace ++
            [Event.fetch (baseUrl.getD "/api/chart_data" ++ "?period=" ++ period),
             Event.consoleError [.text "Error fetching chart data:", .thrown e]] }) := by
  refine ⟨?_, ?_, ?_⟩
  · intro e h
    simp [updateCharts, h, thenChain, consoleError, fetchCall]
  · intro r h hst
    have hok : r.ok = false := by
      simp only [Response.ok]
      by_contra hc
      simp at hc
      exact hst ⟨hc.1, hc.2⟩
    simp [updateCharts, h, thenChain, hok, consoleError, fetchCall]
  · intro r e h hst hj
    have hok : r.ok = true := by simp [Response.ok, hst.1, hst.2]
    simp [updateCharts, h, thenChain, hok, hj, consoleError, fetchCall]

/-- C3, at a concrete input: a backend answering HTTP 500 leaves both slots of a
populated state as they were and logs one error. -/
theorem failed_fetch_only_logs_witness :
    updateCharts bothCanvases failingBackend "weekly" none bothHeld =
      { bothHeld with trace := bothHeld.trace ++
          [Event.fetch "/api/chart_data?period=weekly",
           Event.consoleError [.text "Error fetching chart data:",
             .thrown (.error "HTTP error! status: 500")]] } :=
  (failed_fetch_only_logs bothCanvases failingBackend "weekly" none bothHeld).2.1
    { status := 500, json := .ok .null } rfl (by decide)

theorem configIn_released (chart : ChartRef) (l : List Event) (w : World) (s : ChartSlot) :
    configIn chart (l ++ released w s) = configIn chart l := by
  unfold released
  cases w.slot s <;> simp [configIn_append, configIn]

theorem configIn_snoc_newChart (chart c : ChartRef) (l : List Event) (ctx : Element)
    (config : ChartConfig) :
    configIn chart (l ++ [Event.newChart c ctx config]) =
      if c = chart then some config else configIn chart l := by
  by_cases h : c = chart <;> simp [configIn_append, configIn, h]

theorem configIn_snoc_consoleError (chart : ChartRef) (l : List Event) (args : List LogArg) :
    configIn chart (l ++ [Event.consoleError args]) = configIn chart l := by
  simp [configIn_append, configIn]

theorem configIn_snoc_fetch (chart : ChartRef) (l : List Event) (url : String) :
    configIn chart (l ++ [Event.fetch url]) = configIn chart l := by
  simp [configIn_append, configIn]

theorem initChart_payload_ok (s : ChartSlot) (document : Document) (p : ChartDataPayload)
    (canvasId : Option String) (w : World) :
    ∃ v, (initChart s document p.toJs canvasId w).2 = .ok v := by
  cases h : document (canvasId.getD s.defaultId) with
  | none => exact ⟨none, by rw [initChart_unresolved s document _ canvasId w h]⟩
  | some ctx => exact ⟨_, (initChart_payload_trace s document p canvasId w ctx h).2.2.1⟩

/-- On a successful response whose body is a payload, `updateCharts` is the
request followed by the two initializers, and nothing is caught. -/
theorem updateCharts_payload (document : Document) (network : Network) (period : String)
    (baseUrl : Option String) (w : World) (r : Response) (p : ChartDataPayload)
    (hnet : network (baseUrl.getD "/api/chart_data" ++ "?period=" ++ period) = .fulfilled r)
    (hok : 200 ≤ r.status ∧ r.status ≤ 299) (hjson : r.json = .ok p.toJs) :
    updateCharts document network period baseUrl w =
      (initChart .hours document p.toJs none
        (initChart .revenue document p.toJs none
          (fetchCall (baseUrl.getD "/api/chart_data" ++ "?period=" ++ period) w)).1).1 := by
  have hok1 : r.ok = true := by simp [Response.ok, hok.1, hok.2]
  simp only [updateCharts, hnet, thenChain, hok1, hjson, initChart]
  obtain ⟨v1, h1⟩ := initChart_payload_ok .revenue document p none
    (fetchCall (baseUrl.getD "/api/chart_data" ++ "?period=" ++ period) w)
  simp only [initChart] at h1
  cases hrev : initRevenueChart document p.toJs none
      (fetchCall (baseUrl.getD "/api/chart_data" ++ "?period=" ++ period) w) with
  | mk w1 r1 =>
    rw [hrev] at h1
    simp only [] at h1
    subst h1
    obtain ⟨v2, h2⟩ := initChart_payload_ok .hours document p none w1
    simp only [initChart] at h2
    cases hhrs : initHoursChart document p.toJs none w1 with
    | mk w2 r2 =>
      rw [hhrs] at h2
      simp only [] at h2
      subst h2
      simp [hhrs]

/-- C4. On a successful response whose body is a payload with three sequences of
length `n`, when both default targets resolve, `updateCharts` leaves in the
revenue slot an instance constructed as a `line` chart with the payload's labels
and one dataset holding the revenue series, and in the hours slot an instance
constructed as a `bar` chart with the payload's labels and one dataset holding
the hours series; both datasets have `n` points. -/
theorem update_populates_both_slots (document : Document) (network : Network)
    (period : String) (baseUrl : Option String) (w : World) (r : Response)
    (p : ChartDataPayload) (n : Nat) (cr ch : Element)
    (hnet : network (baseUrl.getD "/api/chart_data" ++ "?period=" ++ period) = .fulfilled r)
    (hok : 200 ≤ r.status ∧ r.status ≤ 299) (hjson : r.json = .ok p.toJs)
    (hlen : p.labels.length = n ∧ p.revenue.length = n ∧ p.hours.length = n)
    (hr : document "revenueChart" = some cr) (hh : document "hoursChart" = some ch) :
    ∃ rev hrs configR configH datasetR datasetH,
      (updateCharts document network period baseUrl w).revenueChartInstance = some rev ∧
        (updateCharts document network period baseUrl w).configOf rev = some configR ∧
        configR.type = "line" ∧
        configR.labels = .array (p.labels.map .string) ∧
        configR.datasets = [datasetR] ∧
        datasetR.data = .array (p.revenue.map .number) ∧
        datasetR.data.length? = some n ∧
      (updateCharts document network period baseUrl w).hoursChartInstance = some hrs ∧
        (updateCharts document network period baseUrl w).configOf hrs = some configH ∧
        configH.type = "bar" ∧
        configH.labels = .array (p.labels.map .string) ∧
        configH.datasets = [datasetH] ∧
        datasetH.data = .array (p.hours.map .number) ∧
        datasetH.data.length? = some n := by
  rw [updateCharts_payload document network period baseUrl w r p hnet hok hjson]
  obtain ⟨t1, s1, -, n1, o1⟩ := initChart_payload_trace .revenue document p none
    (fetchCall (baseUrl.getD "/api/chart_data" ++ "?period=" ++ period) w) cr hr
  obtain ⟨t2, s2, -, -, o2⟩ := initChart_payload_trace .hours document p none
    (initChart .revenue document p.toJs none
      (fetchCall (baseUrl.getD "/api/chart_data" ++ "?period=" ++ period) w)).1 ch hh
  have o2r := o2 .revenue (by decide)
  rw [s1] at o2r
  rw [n1] at s2 t2
  obtain ⟨hl, hrev, hhrs⟩ := hlen
  refine ⟨w.nextChart, w.nextChart + 1, ChartSlot.revenue.config p, ChartSlot.hours.config p,
    _, _, o2r, ?_, rfl, rfl, rfl, rfl, ?_, s2, ?_, rfl, rfl, rfl, rfl, ?_⟩
  · rw [World.configOf, t2, configIn_snoc_newChart, configIn_released, t1,
      configIn_snoc_newChart]
    simp [fetchCall]
  · simp [JsValue.length?, hrev]
  · rw [World.configOf, t2, configIn_snoc_newChart]
    simp [fetchCall]
  · simp [JsValue.length?, hhrs]

/-- C4, at a concrete input: the payload
`{labels: ["Mon", "Tue"], revenue: [10, 20], hours: [1, 2]}` leaves 2-point
datasets in both slots. -/
theorem update_populates_both_slots_witness :
    ∃ rev hrs configR configH datasetR datasetH,
      (updateCharts bothCanvases sampleBackend "weekly" none
          World.initial).revenueChartInstance = some rev ∧
        (updateCharts bothCanvases sampleBackend "weekly" none World.initial).configOf rev =
          some configR ∧
        configR.type = "line" ∧
        configR.labels = .array (samplePayload.labels.map .string) ∧
        configR.datasets = [datasetR] ∧
        datasetR.data = .array (samplePayload.revenue.map .number) ∧
        datasetR.data.length? = some 2 ∧
      (updateCharts bothCanvases sampleBackend "weekly" none
          World.initial).hoursChartInstance = some hrs ∧
        (updateCharts bothCanvases sampleBackend "weekly" none World.initial).configOf hrs =
          some configH ∧
        configH.type = "bar" ∧
        configH.labels = .array (samplePayload.labels.map .string) ∧
        configH.datasets = [datasetH] ∧
        datasetH.data = .array (samplePayload.hours.map .number) ∧
        datasetH.data.length? = some 2 :=
  update_populates_both_slots bothCanvases sampleBackend "weekly" none World.initial
    { status := 200, json := .ok samplePayload.toJs } samplePayload 2 ⟨1⟩ ⟨2⟩ rfl
    (by decide) rfl ⟨rfl, rfl, rfl⟩ rfl rfl

theorem released_congr (w1 w2 : World) (s : ChartSlot) (h : w1.slot s = w2.slot s) :
    released w1 s = released w2 s := by
  unfold released; rw [h]

/-- C9. On a successful response whose body is a payload, the two slots are
handled independently.  When `revenueChart` does not resolve and `hoursChart`
does, the revenue slot holds what it held, the revenue initializer only logs,
and the hours initializer runs: the hours slot receives a new instance,
constructed from the payload's labels and hours.  Symmetrically when only
`hoursChart` does not resolve. -/
theorem update_slots_independent (document : Document) (network : Network)
    (period : String) (baseUrl : Option String) (w : World) (r : Response)
    (p : ChartDataPayload)
    (hnet : network (baseUrl.getD "/api/chart_data" ++ "?period=" ++ period) = .fulfilled r)
    (hok : 200 ≤ r.status ∧ r.status ≤ 299) (hjson : r.json = .ok p.toJs) :
    (∀ ch, document "revenueChart" = none → document "hoursChart" = some ch →
      (updateCharts document network period baseUrl w).revenueChartInstance =
          w.revenueChartInstance ∧
        (updateCharts document network period baseUrl w).hoursChartInstance =
          some w.nextChart ∧
        (updateCharts document network period baseUrl w).configOf w.nextChart =
          some (hoursConfig (.array (p.labels.map .string)) (.array (p.hours.map .number))) ∧
        (updateCharts document network period baseUrl w).trace =
          w.trace ++
            [Event.fetch (baseUrl.getD "/api/chart_data" ++ "?period=" ++ period),
             Event.consoleError [.text "Canvas element with id 'revenueChart' not found"]] ++
            released w .hours ++
            [Event.newChart w.nextChart ch
              (hoursConfig (.array (p.labels.map .string)) (.array (p.hours.map .number)))]) ∧
    (∀ cr, document "revenueChart" = some cr → document "hoursChart" = none →
      (updateCharts document network period baseUrl w).hoursChartInstance =
          w.hoursChartInstance ∧
        (updateCharts document network period baseUrl w).revenueChartInstance =
          some w.nextChart ∧
        (updateCharts document network period baseUrl w).configOf w.nextChart =
          some (revenueConfig (.array (p.labels.map .string))
            (.array (p.revenue.map .number))) ∧
        (updateCharts document network period baseUrl w).trace =
          w.trace ++
            [Event.fetch (baseUrl.getD "/api/chart_data" ++ "?period=" ++ period)] ++
            released w .revenue ++
            [Event.newChart w.nextChart cr
              (revenueConfig (.array (p.labels.map .string))
                (.array (p.revenue.map .number))),
             Event.consoleError [.text "Canvas element with id 'hoursChart' not found"]]) := by
  rw [updateCharts_payload document network period baseUrl w r p hnet hok hjson]
  refine ⟨?_, ?_⟩
  · intro ch hr hh
    rw [initChart_unresolved .revenue document p.toJs none _ hr]
    obtain ⟨t2, s2, -, -, o2⟩ := initChart_payload_trace .hours document p none
      { fetchCall (baseUrl.getD "/api/chart_data" ++ "?period=" ++ period) w with
        trace := (fetchCall (baseUrl.getD "/api/chart_data" ++ "?period=" ++ period) w).trace
          ++ [notFound ((none : Option String).getD ChartSlot.revenue.defaultId)] } ch hh
    have hrel := released_congr
      { fetchCall (baseUrl.getD "/api/chart_data" ++ "?period=" ++ period) w with
        trace := (fetchCall (baseUrl.getD "/api/chart_data" ++ "?period=" ++ period) w).trace
          ++ [notFound ((none : Option String).getD ChartSlot.revenue.defaultId)] } w
      .hours rfl
    rw [hrel] at t2
    refine ⟨o2 .revenue (by decide), s2, ?_, ?_⟩
    · rw [World.configOf, t2, configIn_snoc_newChart]
      simp [fetchCall, ChartSlot.config]
    · rw [t2]
      simp [fetchCall, notFound, ChartSlot.config, ChartSlot.defaultId]
  · intro cr hr hh
    obtain ⟨t1, s1, -, -, o1⟩ := initChart_payload_trace .revenue document p none
      (fetchCall (baseUrl.getD "/api/chart_data" ++ "?period=" ++ period) w) cr hr
    have hrel := released_congr
      (fetchCall (baseUrl.getD "/api/chart_data" ++ "?period=" ++ period) w) w .revenue rfl
    rw [hrel] at t1
    rw [initChart_unresolved .hours document p.toJs none _ hh]
    refine ⟨o1 .hours (by decide), s1, ?_, ?_⟩
    · simp only [World.configOf]
      rw [notFound, configIn_snoc_consoleError, t1, configIn_snoc_newChart]
      simp [fetchCall, ChartSlot.config]
    · simp only []
      rw [t1]
      simp [fetchCall, notFound, ChartSlot.config, ChartSlot.defaultId]

/-- C9, at a concrete input: on a page with the hours canvas only, the sample
payload leaves the revenue slot of a populated state holding instance 0 and puts
the new instance 2 in the hours slot. -/
theorem update_slots_independent_witness :
    (updateCharts hoursCanvasOnly sampleBackend "daily" none bothHeld).revenueChartInstance =
        some 0 ∧
      (updateCharts hoursCanvasOnly sampleBackend "daily" none bothHeld).hoursChartInstance =
        some 2 ∧
      (updateCharts hoursCanvasOnly sampleBackend "daily" none bothHeld).configOf 2 =
        some (hoursConfig (.array (samplePayload.labels.map .string))
          (.array (samplePayload.hours.map .number))) :=
  ⟨((update_slots_independent hoursCanvasOnly sampleBackend "daily" none bothHeld
      { status := 200, json := .ok samplePayload.toJs } samplePayload rfl (by decide) rfl).1
      ⟨2⟩ rfl rfl).1,
    ((update_slots_independent hoursCanvasOnly sampleBackend "daily" none bothHeld
      { status := 200, json := .ok samplePayload.toJs } samplePayload rfl (by decide) rfl).1
      ⟨2⟩ rfl rfl).2.1,
    ((update_slots_independent hoursCanvasOnly sampleBackend "daily" none bothHeld
      { status := 200, json := .ok samplePayload.toJs } samplePayload rfl (by decide) rfl).1
      ⟨2⟩ rfl rfl).2.2.1⟩

/-! ## Ownership: at most one live instance per slot -/

theorem kind_injective (s t : ChartSlot) (h : t.kind = s.kind) : t = s := by
  cases s <;> cases t <;> first | rfl | (exact absurd h (by decide))

theorem constructed_released (kind : String) (w : World) (s : ChartSlot) :
    constructed kind (released w s) = [] := by
  unfold released; cases w.slot s <;> rfl

/-- Every instance of the slot's kind constructed so far, other than the one the
slot holds, has been destroyed. -/
theorem ownership_step (t : ChartSlot) (document : Document) (data : JsValue)
    (canvasId : Option String) (w : World)
    (inv : ∀ s chart, chart ∈ constructed (ChartSlot.kind s) w.trace →
      w.slot s ≠ some chart → chart ∈ destroyed w.trace) :
    ∀ s chart,
      chart ∈ constructed (ChartSlot.kind s) (initChart t document data canvasId w).1.trace →
      (initChart t document data canvasId w).1.slot s ≠ some chart →
      chart ∈ destroyed (initChart t document data canvasId w).1.trace := by
  obtain ⟨hother, h | ⟨ctx, config, hkind, hslot, -, htrace⟩⟩ :=
    initChart_effect t document data canvasId w
  · obtain ⟨hslot, -, htrace⟩ := h
    have hsl : ∀ s, (initChart t document data canvasId w).1.slot s = w.slot s := by
      intro s
      by_cases hst : s = t
      · rw [hst]; exact hslot
      · exact hother s hst
    intro s chart hc hne
    rw [hsl s] at hne
    rcases htrace with htrace | htrace <;> rw [htrace] at hc ⊢
    · simp only [constructed_append, notFound, constructed, List.append_nil] at hc
      rw [destroyed_append]
      exact List.mem_append_left _ (inv s chart hc hne)
    · simp only [constructed_append, constructed_released, List.append_nil] at hc
      rw [destroyed_append]
      exact List.mem_append_left _ (inv s chart hc hne)
  · intro s chart hc hne
    rw [htrace] at hc ⊢
    simp only [constructed_append, constructed_released, List.append_nil, constructed] at hc
    simp only [destroyed_append, destroyed, List.append_nil]
    by_cases hst : s = t
    · subst hst
      rw [hslot] at hne
      rw [if_pos hkind] at hc
      rcases List.mem_append.mp hc with hc | hc
      · by_cases hold : w.slot s = some chart
        · apply List.mem_append_right
          simp [released, hold, destroyed]
        · exact List.mem_append_left _ (inv s chart hc hold)
      · simp only [List.mem_singleton] at hc
        exact absurd (by rw [hc]) hne
    · rw [hother s hst] at hne
      have hk : ¬ config.type = s.kind := by
        rw [hkind]; intro h; exact hst (kind_injective t s h.symm)
      rw [if_neg hk, List.append_nil] at hc
      exact List.mem_append_left _ (inv s chart hc hne)

theorem ownership_run (calls : List Call) (w : World)
    (inv : ∀ s chart, chart ∈ constructed (ChartSlot.kind s) w.trace →
      w.slot s ≠ some chart → chart ∈ destroyed w.trace) :
    ∀ s chart, chart ∈ constructed (ChartSlot.kind s) (runCalls calls w).trace →
      (runCalls calls w).slot s ≠ some chart → chart ∈ destroyed (runCalls calls w).trace := by
  induction calls generalizing w with
  | nil => exact inv
  | cons c rest ih =>
    exact ih _ (ownership_step c.slot c.document c.data c.canvasId w inv)

/-- An initializer keeps the references of the state pointing to existing
objects. -/
theorem wellFormed_step (t : ChartSlot) (document : Document) (data : JsValue)
    (canvasId : Option String) (w : World) (hwf : w.WellFormed) :
    (initChart t document data canvasId w).1.WellFormed := by
  obtain ⟨hother, h | ⟨ctx, config, -, hslot, hnext, -⟩⟩ :=
    initChart_effect t document data canvasId w
  · obtain ⟨hslot, hnext, -⟩ := h
    intro s chart hs
    rw [hnext]
    by_cases hst : s = t
    · subst hst; rw [hslot] at hs; exact hwf s chart hs
    · rw [hother s hst] at hs; exact hwf s chart hs
  · intro s chart hs
    rw [hnext]
    by_cases hst : s = t
    · subst hst; rw [hslot] at hs; injection hs with hs; exact hs ▸ Nat.lt_succ_self _
    · rw [hother s hst] at hs; exact Nat.lt_succ_of_lt (hwf s chart hs)

theorem wellFormed_run (calls : List Call) (w : World) (hwf : w.WellFormed) :
    (runCalls calls w).WellFormed := by
  induction calls generalizing w with
  | nil => exact hwf
  | cons c rest ih => exact ih _ (wellFormed_step c.slot c.document c.data c.canvasId w hwf)

theorem mentioned_append (l l2 : List Event) :
    mentioned (l ++ l2) = mentioned l ++ mentioned l2 := by
  induction l with
  | nil => rfl
  | cons e rest ih => cases e <;> simp [mentioned, ih]

/-- An initializer only destroys and constructs objects that exist: the instance
it constructs has an identity that occurs nowhere in the trace before, and so
every `destroy` of an instance comes after its construction. -/
theorem fresh_step (t : ChartSlot) (document : Document) (data : JsValue)
    (canvasId : Option String) (w : World) (hw : w.Fresh) :
    (initChart t document data canvasId w).1.Fresh := by
  refine ⟨wellFormed_step t document data canvasId w hw.1, ?_⟩
  have hrel : ∀ chart ∈ mentioned (released w t), chart < w.nextChart := by
    intro chart hc
    unfold released at hc
    cases hs : w.slot t with
    | none => rw [hs] at hc; simp [mentioned] at hc
    | some old =>
      rw [hs] at hc
      simp only [mentioned, List.mem_singleton] at hc
      rw [hc]
      exact hw.1 t old hs
  obtain ⟨-, h | ⟨ctx, config, -, -, hnext, htrace⟩⟩ :=
    initChart_effect t document data canvasId w
  · obtain ⟨-, hnext, htrace⟩ := h
    intro chart hc
    rw [hnext]
    rcases htrace with htrace | htrace <;> rw [htrace, mentioned_append] at hc
    · simp only [notFound, mentioned, List.append_nil] at hc
      exact hw.2 chart hc
    · rcases List.mem_append.mp hc with hc | hc
      · exact hw.2 chart hc
      · exact hrel chart hc
  · intro chart hc
    rw [hnext]
    rw [htrace, mentioned_append, mentioned_append] at hc
    rcases List.mem_append.mp hc with hc | hc
    · rcases List.mem_append.mp hc with hc | hc
      · exact Nat.lt_succ_of_lt (hw.2 chart hc)
      · exact Nat.lt_succ_of_lt (hrel chart hc)
    · simp only [mentioned, List.mem_singleton] at hc
      rw [hc]
      exact Nat.lt_succ_self _

theorem fresh_run (calls : List Call) (w : World) (hw : w.Fresh) :
    (runCalls calls w).Fresh := by
  induction calls generalizing w with
  | nil => exact hw
  | cons c rest ih => exact ih _ (fresh_step c.slot c.document c.data c.canvasId w hw)

theorem fresh_initial : World.initial.Fresh := by
  refine ⟨?_, ?_⟩
  · intro s chart h; cases s <;> simp [World.slot, World.initial] at h
  · intro chart h; simp [World.initial, mentioned] at h

/-- C10. From the initial state, after every finite sequence of calls to the two
initializers, with any data, target identifiers and documents, every instance
that a slot's initializer has constructed (the instances of the slot's chart
kind in the trace), other than the instance the slot holds, has been destroyed:
a slot has at most one instance that is not destroyed. -/
theorem at_most_one_live (calls : List Call) (s : ChartSlot) (chart : ChartRef)
    (hbuilt : chart ∈ constructed s.kind (runCalls calls World.initial).trace)
    (hnot : (runCalls calls World.initial).slot s ≠ some chart) :
    chart ∈ destroyed (runCalls calls World.initial).trace :=
  ownership_run calls World.initial
    (by intro s chart h; simp [World.initial, constructed] at h) s chart hbuilt hnot

/-- C10, at a concrete input: after the revenue slot has been initialized twice,
instance 0, which it no longer holds, has been destroyed. -/
theorem at_most_one_live_witness :
    0 ∈ destroyed (runCalls
      [{ slot := .revenue, document := bothCanvases, data := samplePayload.toJs,
         canvasId := none },
       { slot := .hours, document := emptyPage, data := .null, canvasId := none },
       { slot := .revenue, document := bothCanvases, data := samplePayload.toJs,
         canvasId := some "hoursChart" }] World.initial).trace :=
  at_most_one_live _ .revenue 0 (by decide) (by decide)

/-- A body that parses to `null` is not a payload: with a revenue target that
resolves, the revenue initializer releases the instance held, then throws on
`data.labels`; the error is caught and logged, and the hours initializer does
not run. -/
theorem updateCharts_null_body (document : Document) (network : Network) (period : String)
    (baseUrl : Option String) (w : World) (r : Response) (cr : Element)
    (hnet : network (baseUrl.getD "/api/chart_data" ++ "?period=" ++ period) = .fulfilled r)
    (hok : 200 ≤ r.status ∧ r.status ≤ 299) (hjson : r.json = .ok .null)
    (hr : document "revenueChart" = some cr) :
    updateCharts document network period baseUrl w =
      { w with trace := w.trace ++
          [Event.fetch (baseUrl.getD "/api/chart_data" ++ "?period=" ++ period)] ++
          released w .revenue ++
          [Event.consoleError [.text "Error fetching chart data:",
            .thrown (.typeError "Cannot read properties of null (reading labels)")]] } := by
  have hok1 : r.ok = true := by simp [Response.ok, hok.1, hok.2]
  simp only [updateCharts, hnet, thenChain, hok1, hjson, initRevenueChart, Option.getD_none,
    hr, JsValue.get, released, World.slot, fetchCall]
  cases w.revenueChartInstance <;> simp [consoleError, destroy]

/-! ## Decimal digits -/

theorem toDigitsCore_eq (n : Nat) :
    ∀ fuel ds, n < fuel →
      Nat.toDigitsCore 10 fuel n ds = Nat.toDigits 10 n ++ ds := by
  induction n using Nat.strong_induction_on with
  | _ n ih =>
    intro fuel ds hlt
    cases fuel with
    | zero => omega
    | succ fuel =>
      by_cases h0 : n / 10 = 0
      · simp [Nat.toDigits, Nat.toDigitsCore, h0]
      · have hlt1 : n / 10 < n := by omega
        have h1 := ih (n / 10) hlt1 fuel (Nat.digitChar (n % 10) :: ds) (by omega)
        have h2 := ih (n / 10) hlt1 n [Nat.digitChar (n % 10)] hlt1
        simp only [Nat.toDigits, Nat.toDigitsCore, h0, if_false] at h1 h2 ⊢
        rw [h1, h2]
        simp

theorem toDigits_small (n : Nat) (h : n < 10) : Nat.toDigits 10 n = [Nat.digitChar n] := by
  have h0 : n / 10 = 0 := by omega
  have hm : n % 10 = n := by omega
  simp [Nat.toDigits, Nat.toDigitsCore, h0, hm]

theorem toDigits_step (n : Nat) (h : 10 ≤ n) :
    Nat.toDigits 10 n = Nat.toDigits 10 (n / 10) ++ [Nat.digitChar (n % 10)] := by
  have h0 : ¬ n / 10 = 0 := by omega
  have h2 := toDigitsCore_eq (n / 10) n [Nat.digitChar (n % 10)] (by omega)
  simp only [Nat.toDigits, Nat.toDigitsCore, h0, if_false] at h2 ⊢
  exact h2

theorem toDigits_length_pos (n : Nat) : 0 < (Nat.toDigits 10 n).length := by
  by_cases h : n < 10
  · rw [toDigits_small n h]; simp
  · rw [toDigits_step n (by omega)]; simp

theorem fracDigits_length (f : Nat) : ∀ n, (fracDigits f n).length = f := by
  induction f with
  | zero => intro n; rfl
  | succ f ih => intro n; simp [fracDigits, ih]

theorem fracDigits_zero (f : Nat) : fracDigits f 0 = List.replicate f '0' := by
  induction f with
  | zero => rfl
  | succ f ih =>
    simp only [fracDigits, Nat.zero_div, ih, Nat.zero_mod]
    rw [List.replicate_succ']
    rfl

/-- The digits of `n`, padded with zeros to more than `f` digits, are the digits
of `n / 10^f` followed by the `f` low digits of `n`. -/
theorem padded_digits (f : Nat) : ∀ n,
    (if (Nat.toDigits 10 n).length ≤ f then
        List.replicate (f + 1 - (Nat.toDigits 10 n).length) '0' ++ Nat.toDigits 10 n
      else Nat.toDigits 10 n) =
      Nat.toDigits 10 (n / 10 ^ f) ++ fracDigits f n := by
  induction f with
  | zero =>
    intro n
    have := toDigits_length_pos n
    simp [fracDigits]
    omega
  | succ f ih =>
    intro n
    by_cases h : n < 10
    · have hd : n / 10 ^ (f + 1) = 0 := by
        apply Nat.div_eq_of_lt
        calc n < 10 := h
          _ ≤ 10 ^ (f + 1) := Nat.le_self_pow (by omega) 10
      have h10 : n / 10 = 0 := by omega
      have hm : n % 10 = n := by omega
      rw [hd, toDigits_small n h, toDigits_small 0 (by omega)]
      simp only [fracDigits, h10, hm, fracDigits_zero, List.length_singleton]
      rw [if_pos (by omega)]
      have : f + 1 + 1 - 1 = f + 1 := by omega
      rw [this, List.replicate_succ]
      rfl
    · have hstep := toDigits_step n (by omega)
      have hih := ih (n / 10)
      rw [Nat.div_div_eq_div_mul, ← Nat.pow_succ'] at hih
      simp only [Nat.succ_eq_add_one] at hih
      rw [hstep]
      simp only [fracDigits, List.length_append, List.length_singleton]
      rw [← List.append_assoc (Nat.toDigits 10 (n / 10 ^ (f + 1))), ← hih]
      by_cases hl : (Nat.toDigits 10 (n / 10)).length ≤ f
      · rw [if_pos (by omega), if_pos hl]
        have : f + 1 + 1 - ((Nat.toDigits 10 (n / 10)).length + 1) =
            f + 1 - (Nat.toDigits 10 (n / 10)).length := by omega
        rw [this, List.append_assoc]
      · rw [if_neg (by omega), if_neg hl]

/-- For `f ≥ 1`, steps 11.b and 11.c of `toFixed` write the numeral of `n / 10^f`,
a point, and the `f` low digits of `n`. -/
theorem fixedDigits_eq (f n : Nat) (hf : f ≠ 0) :
    JsNumber.fixedDigits f n =
      Nat.repr (n / 10 ^ f) ++ "." ++ String.mk (fracDigits f n) := by
  have hp := padded_digits f n
  have hlen := fracDigits_length f n
  simp only [JsNumber.fixedDigits, if_neg hf]
  rw [hp]
  have hk : (Nat.toDigits 10 (n / 10 ^ f) ++ fracDigits f n).length - f =
      (Nat.toDigits 10 (n / 10 ^ f)).length := by
    simp [hlen]
  rw [hk, List.take_left', List.drop_left']
  · rfl
  · rfl
  · rfl

/-! ## `toFixed` below `10^21` -/

/-- The integer `toFixed` picks is a nearest one: `n / 10^f` is within half a unit
of the last place of `num / den`. -/
theorem nearest_bound (num den f : Nat) (hden : 0 < den) :
    abs ((((2 * num * 10 ^ f + den) / (2 * den) : Nat) : ℚ) / 10 ^ f - (num : ℚ) / den) ≤
      1 / (2 * 10 ^ f) := by
  have h1 : (2 * num * 10 ^ f + den) / (2 * den) * (2 * den) ≤ 2 * num * 10 ^ f + den :=
    Nat.div_mul_le_self _ _
  have h2 : 2 * num * 10 ^ f + den < ((2 * num * 10 ^ f + den) / (2 * den) + 1) * (2 * den) :=
    (Nat.div_lt_iff_lt_mul (by omega)).mp (Nat.lt_succ_self _)
  generalize (2 * num * 10 ^ f + den) / (2 * den) = n at h1 h2
  have q1 : (n : ℚ) * (2 * den) ≤ 2 * num * 10 ^ f + den := by exact_mod_cast h1
  have q2 : (2 * num * 10 ^ f + den : ℚ) < (n + 1) * (2 * den) := by exact_mod_cast h2
  have hP : (0 : ℚ) < 10 ^ f := by positivity
  have hd : (0 : ℚ) < den := by exact_mod_cast hden
  have key : (n : ℚ) / 10 ^ f - (num : ℚ) / den =
      (2 * n * den - 2 * num * 10 ^ f) / (2 * 10 ^ f * den) := by
    field_simp
    ring
  rw [key, abs_le]
  constructor
  · rw [le_div_iff₀ (by positivity)]
    have : -(1 / (2 * (10 : ℚ) ^ f)) * (2 * 10 ^ f * den) = -den := by
      field_simp
      ring
    rw [this]
    linarith
  · rw [div_le_iff₀ (by positivity)]
    have : 1 / (2 * (10 : ℚ) ^ f) * (2 * 10 ^ f * den) = den := by
      field_simp
    rw [this]
    linarith

theorem magDen_pos (exp : Int) : 0 < JsNumber.magDen exp := by
  unfold JsNumber.magDen; positivity

theorem magNum_eq_zero (mant : Nat) (exp : Int) : JsNumber.magNum mant exp = 0 ↔ mant = 0 := by
  unfold JsNumber.magNum
  simp

/-- Below `10^21`, `toFixed(f)` with `f ≥ 1` writes the value rounded to `f`
decimals with exactly `f` digits after the point. -/
theorem toFixed_isFixedNotation (neg : Bool) (mant : Nat) (exp : Int) (f : Nat) (q : ℚ)
    (hf : f ≠ 0) (hq : (JsNumber.finite neg mant exp).toRat = some q)
    (hlt : abs q < 10 ^ 21) :
    IsFixedNotation f q ((JsNumber.finite neg mant exp).toFixed f) := by
  have hd := magDen_pos exp
  have hdq : (0 : ℚ) < JsNumber.magDen exp := by exact_mod_cast hd
  have hmag : (0 : ℚ) ≤ (JsNumber.magNum mant exp : ℚ) / JsNumber.magDen exp := by positivity
  simp only [JsNumber.toRat, Option.some.injEq] at hq
  have habs : abs q = (JsNumber.magNum mant exp : ℚ) / JsNumber.magDen exp := by
    rw [← hq]
    cases neg <;> simp [abs_of_nonneg hmag]
  have hsmall : ¬ 10 ^ 21 * JsNumber.magDen exp ≤ JsNumber.magNum mant exp := by
    intro hle
    have hle' : (10 : ℚ) ^ 21 * JsNumber.magDen exp ≤ JsNumber.magNum mant exp := by
      exact_mod_cast hle
    rw [habs, div_lt_iff₀ hdq] at hlt
    linarith
  have hsign : (neg = true ∧ mant ≠ 0) ↔ q < 0 := by
    rw [← hq]
    constructor
    · rintro ⟨hn, hm⟩
      have hpos : (0 : ℚ) < (JsNumber.magNum mant exp : ℚ) / JsNumber.magDen exp := by
        apply div_pos _ hdq
        have : JsNumber.magNum mant exp ≠ 0 := fun h => hm ((magNum_eq_zero mant exp).mp h)
        exact_mod_cast Nat.pos_of_ne_zero this
      simp [hn]
      exact hpos
    · intro hneg
      cases neg with
      | false => simp at hneg; linarith
      | true =>
        refine ⟨rfl, ?_⟩
        intro hm
        have : JsNumber.magNum mant exp = 0 := (magNum_eq_zero mant exp).mpr hm
        simp [this] at hneg
  refine ⟨(2 * JsNumber.magNum mant exp * 10 ^ f + JsNumber.magDen exp) /
    (2 * JsNumber.magDen exp), ?_, ?_⟩
  · rw [habs]
    exact nearest_bound _ _ f hd
  · simp only [JsNumber.toFixed, if_neg hsmall]
    rw [fixedDigits_eq _ _ hf]
    by_cases hs : neg = true ∧ mant ≠ 0
    · rw [if_pos hs, if_pos (hsign.mp hs)]
      simp [String.append_assoc]
    · rw [if_neg hs, if_neg (fun h => hs (hsign.mpr h))]
      simp [String.append_assoc]

/-- A string in fixed notation contains a decimal point. -/
theorem point_mem_of_isFixedNotation (f : Nat) (q : ℚ) (s : String)
    (h : IsFixedNotation f q s) : '.' ∈ s.data := by
  obtain ⟨n, -, hs⟩ := h
  rw [hs]
  simp [String.data_append]

theorem tick1e21_toRat : tick1e21.toRat = some (10 ^ 21) := by
  have h1 : Int.toNat 21 = 21 := rfl
  have h2 : (-21 : Int).toNat = 0 := rfl
  simp only [tick1e21, JsNumber.toRat, JsNumber.magNum, JsNumber.magDen, h1, h2]
  norm_num

/-! ## The tick callbacks -/

/-- C6 (counterexample). The Number `1e21` is a binary64 value, and the revenue
tick callback turns it into `$1e+21`, which is not `$` followed by a numeral
with two digits after a decimal point. -/
theorem revenue_tick_not_fixed_at_1e21 :
    tick1e21.IsDouble ∧ tick1e21.toRat = some (10 ^ 21) ∧
      revenueTickCallback (.number tick1e21) = .ok "$1e+21" ∧
      ¬ ∃ s, revenueTickCallback (.number tick1e21) = .ok ("$" ++ s) ∧
        IsFixedNotation 2 (10 ^ 21) s := by
  have hev : revenueTickCallback (.number tick1e21) = .ok "$1e+21" := by rfl
  refine ⟨by simp [tick1e21, JsNumber.IsDouble], tick1e21_toRat, hev, ?_⟩
  rintro ⟨s, hs, hfix⟩
  rw [hev] at hs
  injection hs with hs
  have hdata := congrArg String.data hs
  simp only [String.data_append] at hdata
  have hpoint := point_mem_of_isFixedNotation 2 _ s hfix
  have hs' : s.data = ['1', 'e', '+', '2', '1'] := by
    simpa using hdata.symm
  rw [hs'] at hpoint
  exact absurd hpoint (by decide)

/-- C6 (amended). For every finite Number of magnitude below `10^21`, the revenue
tick callback returns `$` followed by the value rounded to two decimals, written
with exactly two digits after the decimal point; for `1234.5` it returns
`$1234.50`. -/
theorem revenue_tick_two_decimals :
    (∀ (neg : Bool) (mant : Nat) (exp : Int) (q : ℚ),
      (JsNumber.finite neg mant exp).toRat = some q → abs q < 10 ^ 21 →
      ∃ s, revenueTickCallback (.number (.finite neg mant exp)) = .ok ("$" ++ s) ∧
        IsFixedNotation 2 q s) ∧
    revenueTickCallback (.number tick1234_5) = .ok "$1234.50" := by
  refine ⟨?_, by rfl⟩
  intro neg mant exp q hq hlt
  exact ⟨_, rfl, toFixed_isFixedNotation neg mant exp 2 q (by decide) hq hlt⟩

/-- C6 (amended), at a concrete input: `-0.125`, a tie, becomes `$-0.13`. -/
theorem revenue_tick_two_decimals_witness :
    (JsNumber.finite true 1 (-3)).toRat = some (-1 / 8) ∧
      revenueTickCallback (.number (.finite true 1 (-3))) = .ok "$-0.13" ∧
      ∃ s, revenueTickCallback (.number (.finite true 1 (-3))) = .ok ("$" ++ s) ∧
        IsFixedNotation 2 (-1 / 8) s :=
  ⟨by norm_num [JsNumber.toRat, JsNumber.magNum, JsNumber.magDen,
      (by decide : (-3 : Int).toNat = 0), (by decide : Int.toNat 3 = 3)],
    by rfl,
    revenue_tick_two_decimals.1 true 1 (-3) (-1 / 8)
      (by norm_num [JsNumber.toRat, JsNumber.magNum, JsNumber.magDen,
        (by decide : (-3 : Int).toNat = 0), (by decide : Int.toNat 3 = 3)])
      (by rw [abs_lt]; constructor <;> norm_num)⟩

/-- C7 (counterexample). The hours tick callback turns the binary64 value `1e21`
into `1e+21h`, which is not a numeral with one digit after a decimal point
followed by `h`. -/
theorem hours_tick_not_fixed_at_1e21 :
    tick1e21.IsDouble ∧ tick1e21.toRat = some (10 ^ 21) ∧
      hoursTickCallback (.number tick1e21) = .ok "1e+21h" ∧
      ¬ ∃ s, hoursTickCallback (.number tick1e21) = .ok (s ++ "h") ∧
        IsFixedNotation 1 (10 ^ 21) s := by
  have hev : hoursTickCallback (.number tick1e21) = .ok "1e+21h" := by rfl
  refine ⟨by simp [tick1e21, JsNumber.IsDouble], tick1e21_toRat, hev, ?_⟩
  rintro ⟨s, hs, hfix⟩
  rw [hev] at hs
  injection hs with hs
  have hdata := congrArg String.data hs
  simp only [String.data_append] at hdata
  have hpoint := point_mem_of_isFixedNotation 1 _ s hfix
  have hs' : s.data = ['1', 'e', '+', '2', '1'] := by
    have hd : s.data ++ ['h'] = ['1', 'e', '+', '2', '1'] ++ ['h'] := hdata.symm
    exact (List.append_left_inj _).mp hd
  rw [hs'] at hpoint
  exact absurd hpoint (by decide)

/-- C7 (amended). For every finite Number of magnitude below `10^21`, the hours
tick callback returns the value rounded to one decimal, written with exactly one
digit after the decimal point, followed by `h`; for `7` it returns `7.0h`. -/
theorem hours_tick_one_decimal :
    (∀ (neg : Bool) (mant : Nat) (exp : Int) (q : ℚ),
      (JsNumber.finite neg mant exp).toRat = some q → abs q < 10 ^ 21 →
      ∃ s, hoursTickCallback (.number (.finite neg mant exp)) = .ok (s ++ "h") ∧
        IsFixedNotation 1 q s) ∧
    hoursTickCallback (.number tick7) = .ok "7.0h" := by
  refine ⟨?_, by rfl⟩
  intro neg mant exp q hq hlt
  exact ⟨_, rfl, toFixed_isFixedNotation neg mant exp 1 q (by decide) hq hlt⟩

/-- C7 (amended), at a concrete input: `7.25`, a tie, becomes `7.3h`. -/
theorem hours_tick_one_decimal_witness :
    (JsNumber.finite false 29 (-2)).toRat = some (29 / 4) ∧
      hoursTickCallback (.number (.finite false 29 (-2))) = .ok "7.3h" ∧
      ∃ s, hoursTickCallback (.number (.finite false 29 (-2))) = .ok (s ++ "h") ∧
        IsFixedNotation 1 (29 / 4) s :=
  ⟨by norm_num [JsNumber.toRat, JsNumber.magNum, JsNumber.magDen,
      (by decide : (-2 : Int).toNat = 0), (by decide : Int.toNat 2 = 2)],
    by rfl,
    hours_tick_one_decimal.1 false 29 (-2) (29 / 4)
      (by norm_num [JsNumber.toRat, JsNumber.magNum, JsNumber.magDen,
        (by decide : (-2 : Int).toNat = 0), (by decide : Int.toNat 2 = 2)])
      (by rw [abs_lt]; constructor <;> norm_num)⟩

end Charts
